import Mathlib

/-!
Shallow embedding of the JupyterLab `documentsearch-extension` core
(`src/packages/documentsearch-extension/src/index.ts`).

The file embeds, from the source:
  * the `ISearchMatch` and `IDisplayState` records;
  * the `Private.ActiveSearchMap` directory (a plain JS object keyed by
    widget id) together with the three operations the source performs on
    it: property read, property assignment and `delete`;
  * `Private.onStartCommand`, `Private.openBoxOrExecute`,
    `Private.onNextCommand`, `Private.onPrevCommand` and the three command
    `execute` closures registered in `activate`.

JS objects are mutable references, so the state is split into a directory
(widget id to instance reference) and a heap (reference to instance
value); every embedded operation also returns an access log recording
directory reads/writes/deletes, registry queries, instance constructions
and navigation delegations, so that no-op claims are provable
non-vacuously.

`searchinstance.ts` and `searchproviderregistry.ts` belong to the
repository but are not under `src/`; the definitions taken from the spec
instead of the source are marked `Modelled from the spec:` below.
-/

namespace DocumentSearch

/-- The `ISearchMatch` record of `index.ts`: matched text, surrounding
fragment, 0-based line, column offset, and ordinal index among matches. -/
structure ISearchMatch where
  text : String
  fragment : String
  line : Nat
  column : Nat
  index : Nat
deriving DecidableEq, Repr

/-- The `IDisplayState` record of `index.ts`. The compiled `query : RegExp`
field is represented by its source pattern string. -/
structure IDisplayState where
  currentIndex : Int
  totalMatches : Nat
  caseSensitive : Bool
  useRegex : Bool
  inputText : String
  queryPattern : String
  errorMessage : String
  forceFocus : Bool
deriving DecidableEq, Repr

/-- Modelled from the spec: the observable state of an `ISearchProvider`
(the implementations are external; `index.ts` only fixes the contract):
the live ordered match sequence and the current match index (null when
no match is active). -/
structure ProviderState where
  matchList : List ISearchMatch
  currentMatchIndex : Option Nat
deriving DecidableEq, Repr

/-- A provider instance as handed out by the registry, tagged with the
identity of the constructor that produced it (so first-match-wins is an
observable property). -/
structure Provider where
  ofCtor : Nat
  state : ProviderState
deriving DecidableEq, Repr

/-- The document-like objects searched: a widget with a string `id` (the
directory key used by `index.ts`) and an opaque discriminator that
`canSearchOn` predicates may inspect. -/
structure Widget where
  id : String
  kind : String
deriving DecidableEq, Repr

/-- An `ISearchProviderConstructor` of `index.ts`: the static
`canSearchOn` applicability predicate plus the `new ()` constructor,
whose fresh instances are tagged with `ctorId`. -/
structure SearchProviderCtor where
  ctorId : Nat
  canSearchOn : Widget → Bool
  build : ProviderState

/-- Modelled from the spec: `searchproviderregistry.ts` is not under
`src/`. `getProviderForWidget` iterates the registered constructors in
registration order and returns a newly constructed instance of the first
one whose `canSearchOn` is true for the widget; `none` if none match. -/
def getProviderForWidget : List SearchProviderCtor → Widget → Option Provider
  | [], _ => none
  | c :: rest, w =>
    if c.canSearchOn w then some { ofCtor := c.ctorId, state := c.build }
    else getProviderForWidget rest w

/-- Modelled from the spec: `searchinstance.ts` is not under `src/`. A
Search Instance owns one widget id, one provider and one display state. -/
structure SearchInstance where
  widgetId : String
  provider : Provider
  displayState : IDisplayState
deriving DecidableEq, Repr

/-- Modelled from the spec: the display state a freshly constructed
Search Instance starts from (no query run yet: index -1, zero matches). -/
def initialDisplayState : IDisplayState :=
  { currentIndex := -1
    totalMatches := 0
    caseSensitive := false
    useRegex := false
    inputText := ""
    queryPattern := ""
    errorMessage := ""
    forceFocus := false }

/-- The constructor call `new SearchInstance(currentWidget, searchProvider)` as observed at
the `index.ts` boundary. -/
def mkSearchInstance (currentWidget : Widget) (searchProvider : Provider) :
    SearchInstance :=
  { widgetId := currentWidget.id
    provider := searchProvider
    displayState := initialDisplayState }

/-- Modelled from the spec: `SearchInstance.focusInput` sets the
force-focus flag consumed by the presentation layer on the next render. -/
def focusInput (s : SearchInstance) : SearchInstance :=
  { s with displayState := { s.displayState with forceFocus := true } }

/-- How a provider's nullable `currentMatchIndex` lands in the display
state's `currentIndex` (null becomes -1). -/
def displayIndexOf : Option Nat → Int
  | some i => (i : Int)
  | none => -1

/-- Modelled from the spec: `SearchInstance.updateIndices` resynchronizes
the display state from the provider's post-operation `currentMatchIndex`
and match sequence length. -/
def updateIndices (s : SearchInstance) : SearchInstance :=
  { s with displayState :=
      { s.displayState with
          currentIndex := displayIndexOf s.provider.state.currentMatchIndex
          totalMatches := s.provider.state.matchList.length } }

/-- Modelled from the spec: the provider contract's `highlightNext`
advances the current-match cursor circularly (from no current match to
index 0, wrapping from last to first) and resolves with the newly current
match, or nothing when there are no matches. -/
def providerHighlightNext (p : ProviderState) :
    ProviderState × Option ISearchMatch :=
  if p.matchList.isEmpty then (p, none)
  else
    let n := p.matchList.length
    let j := match p.currentMatchIndex with
      | none => 0
      | some i => (i + 1) % n
    ({ p with currentMatchIndex := some j }, p.matchList.get? j)

/-- Modelled from the spec: the provider contract's `highlightPrevious`
retreats the cursor circularly (wrapping from first to last). -/
def providerHighlightPrevious (p : ProviderState) :
    ProviderState × Option ISearchMatch :=
  if p.matchList.isEmpty then (p, none)
  else
    let n := p.matchList.length
    let j := match p.currentMatchIndex with
      | none => n - 1
      | some i => (i + n - 1) % n
    ({ p with currentMatchIndex := some j }, p.matchList.get? j)

/-- Embeds `Private.onNextCommand`: `await instance.provider.highlightNext()`,
then `instance.updateIndices()` — the provider operation completes first,
then the display indices are resynchronized from the provider. -/
def onNextCommand (inst : SearchInstance) : SearchInstance :=
  let p := (providerHighlightNext inst.provider.state).1
  updateIndices { inst with provider := { inst.provider with state := p } }

/-- Embeds `Private.onPrevCommand`: `await instance.provider.highlightPrevious()`,
then `instance.updateIndices()`. -/
def onPrevCommand (inst : SearchInstance) : SearchInstance :=
  let p := (providerHighlightPrevious inst.provider.state).1
  updateIndices { inst with provider := { inst.provider with state := p } }

/-- References into the instance heap (JS object identity). -/
abbrev InstRef := Nat

/-- Embeds `Private.ActiveSearchMap`: a JS object keyed by widget id; the values
are object references. -/
abbrev ActiveSearchMap := List (String × InstRef)

/-- Property read `activeSearches[key]` (JS object keys are unique; the
embedding reads the first binding). -/
def dirLookup : ActiveSearchMap → String → Option InstRef
  | [], _ => none
  | (k, v) :: rest, key => if k = key then some v else dirLookup rest key

/-- Property assignment `activeSearches[key] = v`: overwrites the binding
when the key is present, otherwise appends it. -/
def dirAssign : ActiveSearchMap → String → InstRef → ActiveSearchMap
  | [], key, v => [(key, v)]
  | (k, v0) :: rest, key, v =>
    if k = key then (k, v) :: rest else (k, v0) :: dirAssign rest key v

/-- Embeds `delete activeSearches[key]`. -/
def dirRemove : ActiveSearchMap → String → ActiveSearchMap
  | [], _ => []
  | (k, v) :: rest, key =>
    if k = key then dirRemove rest key else (k, v) :: dirRemove rest key

/-- The heap of live `SearchInstance` objects, keyed by reference. -/
abbrev InstanceHeap := List (InstRef × SearchInstance)

/-- Dereference an instance. -/
def heapLookup : InstanceHeap → InstRef → Option SearchInstance
  | [], _ => none
  | (r, s) :: rest, ref => if r = ref then some s else heapLookup rest ref

/-- Allocate or overwrite an instance at a reference. -/
def heapAssign : InstanceHeap → InstRef → SearchInstance → InstanceHeap
  | [], ref, s => [(ref, s)]
  | (r, s0) :: rest, ref, s =>
    if r = ref then (r, s) :: rest else (r, s0) :: heapAssign rest ref s

/-- Mutate the instance object behind a reference in place (a JS method
call on the object found in the map). -/
def heapUpdate (h : InstanceHeap) (ref : InstRef)
    (f : SearchInstance → SearchInstance) : InstanceHeap :=
  match h with
  | [] => []
  | (r, s) :: rest =>
    if r = ref then (r, f s) :: rest else (r, s) :: heapUpdate rest ref f

/-- The mutable state visible to the command layer: the active-search
directory, the instance heap, and a fresh-reference supply standing for
object allocation. -/
structure SearchState where
  directory : ActiveSearchMap
  heap : InstanceHeap
  fresh : InstRef
deriving DecidableEq, Repr

/-- One entry of the access log the embedded operations emit. -/
inductive Access where
  | dirRead (key : String)
  | registryQuery (key : String)
  | construct (ref : InstRef)
  | dirWrite (key : String)
  | dirDelete (key : String)
  | navDelegate (ref : InstRef)
deriving DecidableEq, Repr

/-- Embeds `Private.onStartCommand`: reuse the existing instance for the widget
id (only refocusing its input) when the directory has one; otherwise ask
the registry for a provider, returning unchanged when none applies, and
otherwise construct, register, wire disposal and focus the new instance. -/
def onStartCommand (registry : List SearchProviderCtor)
    (currentWidget : Widget) (st : SearchState) :
    SearchState × List Access :=
  let widgetId := currentWidget.id
  match dirLookup st.directory widgetId with
  | some ref =>
      ({ st with heap := heapUpdate st.heap ref focusInput },
       [Access.dirRead widgetId])
  | none =>
    match getProviderForWidget registry currentWidget with
    | none =>
        (st, [Access.dirRead widgetId, Access.registryQuery widgetId])
    | some searchProvider =>
        let ref := st.fresh
        let searchInstance :=
          focusInput (mkSearchInstance currentWidget searchProvider)
        ({ directory := dirAssign st.directory widgetId ref
           heap := heapAssign st.heap ref searchInstance
           fresh := st.fresh + 1 },
         [Access.dirRead widgetId, Access.registryQuery widgetId,
          Access.construct ref, Access.dirWrite widgetId])

/-- The `disposed` handler `onStartCommand` connects for the instance
registered under `widgetId`: `delete activeSearches[widgetId]`. -/
def onSearchWidgetDisposed (widgetId : String) (st : SearchState) :
    SearchState × List Access :=
  ({ st with directory := dirRemove st.directory widgetId },
   [Access.dirDelete widgetId])

/-- Embeds `Private.openBoxOrExecute`: run `command` on the directory's instance
for the widget id when one exists, otherwise fall through to
`onStartCommand`. -/
def openBoxOrExecute (registry : List SearchProviderCtor)
    (currentWidget : Widget) (st : SearchState)
    (command : SearchInstance → SearchInstance) :
    SearchState × List Access :=
  match dirLookup st.directory currentWidget.id with
  | some ref =>
      ({ st with heap := heapUpdate st.heap ref command },
       [Access.dirRead currentWidget.id, Access.navDelegate ref])
  | none =>
      let r := onStartCommand registry currentWidget st
      (r.1, Access.dirRead currentWidget.id :: r.2)

/-- The `documentsearch:start` command's `execute`: return immediately
when the shell has no current widget. -/
def startCommandExecute (currentWidget : Option Widget)
    (registry : List SearchProviderCtor) (st : SearchState) :
    SearchState × List Access :=
  match currentWidget with
  | none => (st, [])
  | some w => onStartCommand registry w st

/-- The `documentsearch:highlightNext` command's `execute`. -/
def nextCommandExecute (currentWidget : Option Widget)
    (registry : List SearchProviderCtor) (st : SearchState) :
    SearchState × List Access :=
  match currentWidget with
  | none => (st, [])
  | some w => openBoxOrExecute registry w st onNextCommand

/-- The `documentsearch:highlightPrevious` command's `execute`. -/
def prevCommandExecute (currentWidget : Option Widget)
    (registry : List SearchProviderCtor) (st : SearchState) :
    SearchState × List Access :=
  match currentWidget with
  | none => (st, [])
  | some w => openBoxOrExecute registry w st onPrevCommand

/-- Does a log entry record a navigation delegation? -/
def isNavDelegate : Access → Bool
  | Access.navDelegate _ => true
  | _ => false

/-! ### Sample data for concrete instantiations -/

/-- A sample match: `"foo"` at line 0, column 0, in `"foo bar foo"`. -/
def mFooA : ISearchMatch :=
  { text := "foo", fragment := "foo bar foo", line := 0, column := 0, index := 0 }

/-- A second sample match: `"foo"` at column 8. -/
def mFooB : ISearchMatch :=
  { text := "foo", fragment := "foo bar foo", line := 0, column := 8, index := 1 }

/-- A sample provider constructor applying to editor widgets. -/
def sampleCtor : SearchProviderCtor :=
  { ctorId := 7
    canSearchOn := fun w => w.kind == "editor"
    build := { matchList := [mFooA, mFooB], currentMatchIndex := none } }

/-- A more specific sample constructor applying to notebook widgets. -/
def notebookCtor : SearchProviderCtor :=
  { ctorId := 1
    canSearchOn := fun w => w.kind == "notebook"
    build := { matchList := [], currentMatchIndex := none } }

/-- A sample fallback constructor applying to every widget. -/
def fallbackCtor : SearchProviderCtor :=
  { ctorId := 2
    canSearchOn := fun _ => true
    build := { matchList := [], currentMatchIndex := none } }

/-- A sample editor widget with id `"w1"`. -/
def wEditor : Widget := { id := "w1", kind := "editor" }

/-- A sample instance as constructed for `wEditor` by `sampleCtor`. -/
def sampleInstance : SearchInstance :=
  mkSearchInstance wEditor { ofCtor := 7, state := sampleCtor.build }

/-- A sample state whose directory binds `"w1"` to reference 0. -/
def sampleState : SearchState :=
  { directory := [("w1", 0)], heap := [(0, sampleInstance)], fresh := 1 }

/-- The state before any search was started. -/
def emptyState : SearchState := { directory := [], heap := [], fresh := 0 }

/-! ### Directory lemmas -/

/-- After `delete activeSearches[key]`, reading `key` yields nothing. -/
theorem dirLookup_dirRemove_self (m : ActiveSearchMap) (key : String) :
    dirLookup (dirRemove m key) key = none := by
  induction m with
  | nil => rfl
  | cons kv rest ih =>
    obtain ⟨k, v⟩ := kv
    by_cases h : k = key
    · simpa [dirRemove, h] using ih
    · simp [dirRemove, dirLookup, h, ih]

/-- Deleting a key leaves every other key's binding unchanged. -/
theorem dirLookup_dirRemove_ne (m : ActiveSearchMap) (key k : String)
    (hk : k ≠ key) :
    dirLookup (dirRemove m key) k = dirLookup m k := by
  induction m with
  | nil => rfl
  | cons kv rest ih =>
    obtain ⟨k0, v⟩ := kv
    by_cases h : k0 = key
    · have hne : ¬ k0 = k := by
        intro hh
        exact hk (by rw [← hh]; exact h)
      simp [dirRemove, dirLookup, h, hne, ih, Ne.symm hk]
    · by_cases h2 : k0 = k
      · simp [dirRemove, dirLookup, h, h2, hk]
      · simp [dirRemove, dirLookup, h, h2, ih]

/-- After `activeSearches[key] = v`, reading `key` yields `v`. -/
theorem dirLookup_dirAssign_self (m : ActiveSearchMap) (key : String)
    (v : InstRef) :
    dirLookup (dirAssign m key v) key = some v := by
  induction m with
  | nil => simp [dirAssign, dirLookup]
  | cons kv rest ih =>
    obtain ⟨k0, v0⟩ := kv
    by_cases h : k0 = key
    · simp [dirAssign, dirLookup, h]
    · simp [dirAssign, dirLookup, h, ih]

/-- Assignment leaves every other key's binding unchanged. -/
theorem dirLookup_dirAssign_ne (m : ActiveSearchMap) (key k : String)
    (v : InstRef) (hk : k ≠ key) :
    dirLookup (dirAssign m key v) k = dirLookup m k := by
  induction m with
  | nil => simp [dirAssign, dirLookup, Ne.symm hk]
  | cons kv rest ih =>
    obtain ⟨k0, v0⟩ := kv
    by_cases h : k0 = key
    · have hne : ¬ k0 = k := by
        intro hh
        exact hk (by rw [← hh]; exact h)
      simp [dirAssign, dirLookup, h, hne, Ne.symm hk]
    · by_cases h2 : k0 = k
      · simp [dirAssign, dirLookup, h, h2, hk]
      · simp [dirAssign, dirLookup, h, h2, ih]

/-- Assigning a key that has no binding adds exactly one entry. -/
theorem dirAssign_length_of_none (m : ActiveSearchMap) (key : String)
    (v : InstRef) (h : dirLookup m key = none) :
    (dirAssign m key v).length = m.length + 1 := by
  induction m with
  | nil => rfl
  | cons kv rest ih =>
    obtain ⟨k0, v0⟩ := kv
    by_cases hh : k0 = key
    · simp [dirLookup, hh] at h
    · simp [dirLookup, hh] at h
      simp [dirAssign, hh, ih h]

/-- The function `onStartCommand` never touches a directory key other than the target
widget's id. -/
theorem onStartCommand_dirLookup_ne (registry : List SearchProviderCtor)
    (w : Widget) (st : SearchState) (k : String) (hk : k ≠ w.id) :
    dirLookup (onStartCommand registry w st).1.directory k =
      dirLookup st.directory k := by
  unfold onStartCommand
  cases hd : dirLookup st.directory w.id with
  | some ref => simp [hd]
  | none =>
    cases hp : getProviderForWidget registry w with
    | none => simp [hd, hp]
    | some p => simp [hd, hp, dirLookup_dirAssign_ne st.directory w.id k st.fresh hk]

/-- The function `openBoxOrExecute` never touches a directory key other than the
target widget's id. -/
theorem openBoxOrExecute_dirLookup_ne (registry : List SearchProviderCtor)
    (w : Widget) (st : SearchState) (k : String)
    (command : SearchInstance → SearchInstance) (hk : k ≠ w.id) :
    dirLookup (openBoxOrExecute registry w st command).1.directory k =
      dirLookup st.directory k := by
  unfold openBoxOrExecute
  cases hd : dirLookup st.directory w.id with
  | some ref => simp [hd]
  | none => simp [hd, onStartCommand_dirLookup_ne registry w st k hk]

/-- The start path never emits a navigation delegation. -/
theorem onStartCommand_no_navDelegate (registry : List SearchProviderCtor)
    (w : Widget) (st : SearchState) :
    ((onStartCommand registry w st).2).filter isNavDelegate = [] := by
  unfold onStartCommand
  cases hd : dirLookup st.directory w.id with
  | some ref => simp [hd, isNavDelegate]
  | none =>
    cases hp : getProviderForWidget registry w with
    | none => simp [hd, hp, isNavDelegate]
    | some p => simp [hd, hp, isNavDelegate]

/-! ### Claim theorems -/

/-- C1: at most one live Search Instance per document. When start-search
runs on a widget whose id already has a directory entry, `onStartCommand`
only refocuses the existing instance's input: the directory and the
allocation counter are unchanged (no new instance is constructed or
registered), the heap changes only by `focusInput` on the found
reference, and the log records nothing but the directory read. -/
theorem startCommand_reuses_existing_instance
    (registry : List SearchProviderCtor) (currentWidget : Widget)
    (st : SearchState) (ref : InstRef)
    (h : dirLookup st.directory currentWidget.id = some ref) :
    (onStartCommand registry currentWidget st).1.directory = st.directory ∧
    (onStartCommand registry currentWidget st).1.fresh = st.fresh ∧
    (onStartCommand registry currentWidget st).1.heap =
      heapUpdate st.heap ref focusInput ∧
    (onStartCommand registry currentWidget st).2 =
      [Access.dirRead currentWidget.id] := by
  unfold onStartCommand
  simp [h]

/-- C1 witness: concrete reuse on `sampleState`, whose directory already
binds `"w1"`. -/
theorem startCommand_reuses_existing_instance_witness :
    (onStartCommand [sampleCtor] wEditor sampleState).1.directory =
      sampleState.directory ∧
    (onStartCommand [sampleCtor] wEditor sampleState).1.fresh =
      sampleState.fresh ∧
    (onStartCommand [sampleCtor] wEditor sampleState).1.heap =
      heapUpdate sampleState.heap 0 focusInput ∧
    (onStartCommand [sampleCtor] wEditor sampleState).2 =
      [Access.dirRead "w1"] :=
  startCommand_reuses_existing_instance [sampleCtor] wEditor sampleState 0
    (by decide)

/-- C2: disposing a Search Instance's overlay widget deletes its
directory entry, so a subsequent lookup of that document id yields
nothing; the delete touches no other key, and neither the start path nor
the navigation path disturbs entries of other documents. -/
theorem dispose_removes_directory_entry
    (st : SearchState) (widgetId k : String)
    (registry : List SearchProviderCtor) (w : Widget)
    (command : SearchInstance → SearchInstance) :
    dirLookup (onSearchWidgetDisposed widgetId st).1.directory widgetId =
      none ∧
    (onSearchWidgetDisposed widgetId st).2 = [Access.dirDelete widgetId] ∧
    (k ≠ widgetId →
      dirLookup (onSearchWidgetDisposed widgetId st).1.directory k =
        dirLookup st.directory k) ∧
    (k ≠ w.id →
      dirLookup (onStartCommand registry w st).1.directory k =
        dirLookup st.directory k) ∧
    (k ≠ w.id →
      dirLookup (openBoxOrExecute registry w st command).1.directory k =
        dirLookup st.directory k) :=
  ⟨dirLookup_dirRemove_self st.directory widgetId,
   rfl,
   fun hk => dirLookup_dirRemove_ne st.directory widgetId k hk,
   fun hk => onStartCommand_dirLookup_ne registry w st k hk,
   fun hk => openBoxOrExecute_dirLookup_ne registry w st k command hk⟩

/-- C2 witness: disposing `"w1"` on `sampleState` empties its entry while
an unrelated key `"w2"` is untouched by dispose, start and next. -/
theorem dispose_removes_directory_entry_witness :
    dirLookup (onSearchWidgetDisposed "w1" sampleState).1.directory "w1" =
      none ∧
    dirLookup (onSearchWidgetDisposed "w1" sampleState).1.directory "w2" =
      dirLookup sampleState.directory "w2" ∧
    dirLookup (onStartCommand [sampleCtor] wEditor sampleState).1.directory
        "w2" = dirLookup sampleState.directory "w2" ∧
    dirLookup
        (openBoxOrExecute [sampleCtor] wEditor sampleState onNextCommand).1.directory
        "w2" = dirLookup sampleState.directory "w2" := by
  have h := dispose_removes_directory_entry sampleState "w1" "w2" [sampleCtor]
    wEditor onNextCommand
  exact ⟨h.1, h.2.2.1 (by decide), h.2.2.2.1 (by decide), h.2.2.2.2 (by decide)⟩

/-- C3 counterexample: with an empty directory, invoking the next-match
path constructs and registers a fresh instance but does not execute the
navigation command on it: the log records no navigation delegation, the
registered instance is exactly the freshly constructed (focused) one,
and running `onNextCommand` on that instance would have produced a
different instance (current index moved to 0). -/
theorem openBoxOrExecute_create_counterexample :
    ((openBoxOrExecute [sampleCtor] wEditor emptyState onNextCommand).2).filter
        isNavDelegate = [] ∧
    heapLookup
        (openBoxOrExecute [sampleCtor] wEditor emptyState onNextCommand).1.heap
        0 = some (focusInput sampleInstance) ∧
    onNextCommand (focusInput sampleInstance) ≠ focusInput sampleInstance := by
  refine ⟨by decide, by decide, by decide⟩

/-- C3 (amended): `openBoxOrExecute` resolves by directory lookup and
delegates the navigation command to the instance when one is found; when
none exists it falls through to the start-search path, which constructs
and registers an instance but does not execute the navigation command on
it. -/
theorem openBoxOrExecute_resolves_and_delegates
    (registry : List SearchProviderCtor) (w : Widget) (st : SearchState)
    (command : SearchInstance → SearchInstance) :
    (∀ ref, dirLookup st.directory w.id = some ref →
      openBoxOrExecute registry w st command =
        ({ st with heap := heapUpdate st.heap ref command },
         [Access.dirRead w.id, Access.navDelegate ref])) ∧
    (dirLookup st.directory w.id = none →
      (openBoxOrExecute registry w st command).1 =
        (onStartCommand registry w st).1 ∧
      ((openBoxOrExecute registry w st command).2).filter isNavDelegate =
        []) := by
  constructor
  · intro ref h
    unfold openBoxOrExecute
    simp [h]
  · intro h
    unfold openBoxOrExecute
    simp [h, isNavDelegate, onStartCommand_no_navDelegate registry w st]

/-- C3 amended witness: on `sampleState` the instance for `"w1"` is found
and the next-match command is delegated to it. -/
theorem openBoxOrExecute_resolves_and_delegates_witness :
    openBoxOrExecute [sampleCtor] wEditor sampleState onNextCommand =
      ({ sampleState with
          heap := heapUpdate sampleState.heap 0 onNextCommand },
       [Access.dirRead "w1", Access.navDelegate 0]) :=
  (openBoxOrExecute_resolves_and_delegates [sampleCtor] wEditor sampleState
    onNextCommand).1 0 (by decide)

/-- C4: when no directory entry exists and the registry yields no
provider, start-search is a no-op: the state (directory included) is
returned unchanged and the log shows only the directory read and the
registry query — no construction, no registration. -/
theorem startCommand_no_provider_noop
    (registry : List SearchProviderCtor) (w : Widget) (st : SearchState)
    (h1 : dirLookup st.directory w.id = none)
    (h2 : getProviderForWidget registry w = none) :
    onStartCommand registry w st =
      (st, [Access.dirRead w.id, Access.registryQuery w.id]) := by
  unfold onStartCommand
  simp [h1, h2]

/-- C4 witness: a terminal widget that `sampleCtor` cannot search. -/
theorem startCommand_no_provider_noop_witness :
    onStartCommand [sampleCtor] { id := "w9", kind := "terminal" }
        emptyState =
      (emptyState, [Access.dirRead "w9", Access.registryQuery "w9"]) :=
  startCommand_no_provider_noop [sampleCtor]
    { id := "w9", kind := "terminal" } emptyState (by decide) (by decide)

/-- C5: the next-match and previous-match commands run the provider
operation to completion first and only then resynchronize the display
indices, so the resulting display state is computed from the provider's
post-operation state. -/
theorem navigation_resyncs_indices_from_provider (inst : SearchInstance) :
    ((onNextCommand inst).provider.state =
        (providerHighlightNext inst.provider.state).1 ∧
      (onNextCommand inst).displayState.currentIndex =
        displayIndexOf
          (providerHighlightNext inst.provider.state).1.currentMatchIndex ∧
      (onNextCommand inst).displayState.totalMatches =
        (providerHighlightNext inst.provider.state).1.matchList.length) ∧
    ((onPrevCommand inst).provider.state =
        (providerHighlightPrevious inst.provider.state).1 ∧
      (onPrevCommand inst).displayState.currentIndex =
        displayIndexOf
          (providerHighlightPrevious inst.provider.state).1.currentMatchIndex ∧
      (onPrevCommand inst).displayState.totalMatches =
        (providerHighlightPrevious inst.provider.state).1.matchList.length) :=
  ⟨⟨rfl, rfl, rfl⟩, ⟨rfl, rfl, rfl⟩⟩

/-- C6: `getProviderForWidget` returns a newly constructed instance of
the first registered constructor whose `canSearchOn` holds (it equals
first-match over the registration order), returns nothing exactly when
no registered predicate holds, and registering an applicable constructor
in front makes it win. -/
theorem getProviderForWidget_first_match
    (registry : List SearchProviderCtor) (w : Widget)
    (c : SearchProviderCtor) :
    (getProviderForWidget registry w =
      (registry.find? fun c0 => c0.canSearchOn w).map
        fun c0 => { ofCtor := c0.ctorId, state := c0.build }) ∧
    (getProviderForWidget registry w = none ↔
      ∀ c0 ∈ registry, c0.canSearchOn w = false) ∧
    (c.canSearchOn w = true →
      getProviderForWidget (c :: registry) w =
        some { ofCtor := c.ctorId, state := c.build }) := by
  refine ⟨?_, ?_, ?_⟩
  · induction registry with
    | nil => rfl
    | cons c0 rest ih =>
      by_cases h : c0.canSearchOn w
      · simp [getProviderForWidget, h]
      · simp [getProviderForWidget, h, ih]
  · induction registry with
    | nil => simp [getProviderForWidget]
    | cons c0 rest ih =>
      by_cases h : c0.canSearchOn w
      · simp [getProviderForWidget, h]
      · simp [getProviderForWidget, h, ih]
  · intro h
    simp [getProviderForWidget, h]

/-- C6 witness: with the notebook constructor registered before the
always-applicable fallback, a notebook widget gets the notebook provider
(first-match-wins); the same registry yields nothing for no widget only
when no predicate holds, checked here through the iff on a terminal-only
registry. -/
theorem getProviderForWidget_first_match_witness :
    getProviderForWidget (notebookCtor :: [fallbackCtor])
        { id := "n1", kind := "notebook" } =
      some { ofCtor := 1, state := notebookCtor.build } :=
  (getProviderForWidget_first_match [fallbackCtor]
    { id := "n1", kind := "notebook" } notebookCtor).2.2 (by decide)

/-- C7 counterexample: registering under an id that already has an entry
does not fail — the assignment silently replaces the existing binding. -/
theorem register_existing_counterexample :
    dirAssign [("w1", 0)] "w1" 1 = [("w1", 1)] ∧
    dirLookup (dirAssign [("w1", 0)] "w1" 1) "w1" = some 1 := by
  refine ⟨by decide, by decide⟩

/-- C7 (amended): registration is plain object assignment and cannot
fail; over an existing entry it silently replaces the binding, and under
the precondition that no entry exists for the id it inserts exactly one
entry, resolvable at that id, leaving every other key unchanged. -/
theorem register_inserts_when_absent
    (m : ActiveSearchMap) (key k : String) (v : InstRef)
    (h : dirLookup m key = none) (hk : k ≠ key) :
    dirLookup (dirAssign m key v) key = some v ∧
    dirLookup (dirAssign m key v) k = dirLookup m k ∧
    (dirAssign m key v).length = m.length + 1 :=
  ⟨dirLookup_dirAssign_self m key v,
   dirLookup_dirAssign_ne m key k v hk,
   dirAssign_length_of_none m key v h⟩

/-- C7 amended witness: inserting `"w2"` into the directory of
`sampleState`. -/
theorem register_inserts_when_absent_witness :
    dirLookup (dirAssign [("w1", 0)] "w2" 1) "w2" = some 1 ∧
    dirLookup (dirAssign [("w1", 0)] "w2" 1) "w1" =
      dirLookup [("w1", 0)] "w1" ∧
    (dirAssign [("w1", 0)] "w2" 1).length = [("w1", 0)].length + 1 :=
  register_inserts_when_absent [("w1", 0)] "w2" "w1" 1 (by decide) (by decide)

/-- C8: Match records are never mutated: every operation of the subsystem
that touches a provider or an instance leaves the match sequence — hence
every field of every match — exactly as the provider produced it. -/
theorem match_records_never_mutated (p : ProviderState)
    (inst : SearchInstance) :
    (providerHighlightNext p).1.matchList = p.matchList ∧
    (providerHighlightPrevious p).1.matchList = p.matchList ∧
    (onNextCommand inst).provider.state.matchList =
      inst.provider.state.matchList ∧
    (onPrevCommand inst).provider.state.matchList =
      inst.provider.state.matchList ∧
    (updateIndices inst).provider.state.matchList =
      inst.provider.state.matchList ∧
    (focusInput inst).provider.state.matchList =
      inst.provider.state.matchList := by
  refine ⟨?_, ?_, ?_, ?_, rfl, rfl⟩ <;>
    simp only [providerHighlightNext, providerHighlightPrevious,
      onNextCommand, onPrevCommand, updateIndices] <;>
    split <;> rfl

/-- C9: each of the three commands returns immediately when the shell has
no current widget: the state is untouched and the empty access log shows
the registry was not consulted, no provider constructed, and the
directory neither read nor modified. -/
theorem commands_noop_without_current_widget
    (registry : List SearchProviderCtor) (st : SearchState) :
    startCommandExecute none registry st = (st, []) ∧
    nextCommandExecute none registry st = (st, []) ∧
    prevCommandExecute none registry st = (st, []) :=
  ⟨rfl, rfl, rfl⟩

/-- C10: the directory keys on the widget's string id: two widgets with
equal ids resolve the same instance reference (start refocuses it,
navigation delegates to it), and operations on one id never disturb the
binding of a different id (start and dispose included). -/
theorem directory_keys_on_widget_id
    (registry : List SearchProviderCtor) (st : SearchState)
    (w1 w2 : Widget) (ref : InstRef) (k : String)
    (command : SearchInstance → SearchInstance) :
    (w1.id = w2.id → dirLookup st.directory w1.id = some ref →
      (onStartCommand registry w2 st).1 =
        { st with heap := heapUpdate st.heap ref focusInput } ∧
      openBoxOrExecute registry w2 st command =
        ({ st with heap := heapUpdate st.heap ref command },
         [Access.dirRead w2.id, Access.navDelegate ref])) ∧
    (k ≠ w1.id →
      dirLookup (onStartCommand registry w1 st).1.directory k =
        dirLookup st.directory k ∧
      dirLookup (onSearchWidgetDisposed w1.id st).1.directory k =
        dirLookup st.directory k) := by
  constructor
  · intro hid h
    rw [hid] at h
    constructor
    · unfold onStartCommand
      simp [h]
    · unfold openBoxOrExecute
      simp [h]
  · intro hk
    exact ⟨onStartCommand_dirLookup_ne registry w1 st k hk,
      dirLookup_dirRemove_ne st.directory w1.id k hk⟩

/-- C10 witness: a widget object distinct from `wEditor` but with the
same id `"w1"` resolves the instance registered for `wEditor`, while key
`"w2"` is undisturbed. -/
theorem directory_keys_on_widget_id_witness :
    ((onStartCommand [sampleCtor] { id := "w1", kind := "other" }
        sampleState).1 =
      { sampleState with
          heap := heapUpdate sampleState.heap 0 focusInput } ∧
    openBoxOrExecute [sampleCtor] { id := "w1", kind := "other" }
        sampleState onNextCommand =
      ({ sampleState with
          heap := heapUpdate sampleState.heap 0 onNextCommand },
       [Access.dirRead "w1", Access.navDelegate 0])) ∧
    dirLookup (onStartCommand [sampleCtor] wEditor sampleState).1.directory
        "w2" = dirLookup sampleState.directory "w2" := by
  have h := directory_keys_on_widget_id [sampleCtor] sampleState wEditor
    { id := "w1", kind := "other" } 0 "w2" onNextCommand
  exact ⟨h.1 rfl (by decide), (h.2 (by decide)).1⟩

end DocumentSearch
